import Mathlib

/-!
Shallow embedding of `samples/nrf9160/tcp_client/src/main.c` (nRF9160 TCP
client sample).  External collaborators (the LTE link-control library, the
BSD socket stack, the kernel work queue and semaphore) are modelled by an
environment of return values; each embedded function produces the list of
observable actions it performs (log lines, socket calls, work submissions,
semaphore operations) together with its C return value where it has one.
-/

namespace TcpClient

/-- Build-time configuration constants (the Kconfig options `main.c` reads). -/
structure Config where
  tcp_data_upload_size_bytes : Nat
  tcp_data_upload_frequency_seconds : Nat
  tcp_server_port : Nat
  lte_link_control : Bool
  lte_auto_init_and_connect : Bool
  tcp_psm_enable : Bool
  tcp_edrx_enable : Bool
  tcp_rai_enable : Bool
deriving DecidableEq

/-- Return values supplied by the external collaborators during one run:
the modem library calls, the socket calls and `inet_pton`. -/
structure Env where
  psmRet : Int
  edrxRet : Int
  raiRet : Int
  modemInitRet : Int
  socketRet : Int
  connectRet : Int
  ptonRet : Int
  ptonAddr : Nat
deriving DecidableEq

/-- Tags for the distinct `printk` messages of `main.c`. -/
inductive Msg where
  | sampleStarted
  | transmittingInfo
  | transmitTarget
  | sendFailed
  | socketCreateFailed
  | connectFailed
  | connectSuccess
  | notAbleToInit
  | notAbleToConnect
  | lowPowerErr
  | psmReqErr
  | edrxReqErr
  | raiReqErr
  | modemConfigErr
  | nwRegStatusConnected
  | psmUpdate
  | edrxUpdate
  | rrcMode
  | cellUpdate
deriving DecidableEq

/-- Delay argument of `k_delayed_work_submit` (`K_NO_WAIT` or `K_SECONDS(n)`). -/
inductive Delay where
  | noWait
  | seconds (n : Nat)
deriving DecidableEq

/-- Observable actions performed by the embedded functions. -/
inductive Action where
  | log (m : Msg)
  | workInit
  | lteInitAndConnectAsync
  | semTake
  | semGive
  | socketCreate
  | connectCall (fd : Int)
  | sendCall (fd : Int) (buf : List Nat)
  | closeCall (fd : Int)
  | submitWork (d : Delay)
deriving DecidableEq

/-- Holds of a plain `printk` action. -/
def isLogAction : Action → Bool
  | Action.log _ => true
  | _ => false

/-- The zero-filled payload buffer: `char buffer[N] = {"\0"}` zero-initialises
all `N` bytes. -/
def zeroBuffer (n : Nat) : List Nat := List.replicate n 0

/-- Embeds `server_transmission_work_fn`: logs the transmission banner, sends the
zero-filled buffer of the configured size on `client_fd`, then either (send
returned a negative value) logs the failure, closes the socket and returns,
or re-submits the delayed work after the configured interval.  `sendRet` is
the value the socket stack returns for this `send` call. -/
def server_transmission_work_fn (cfg : Config) (client_fd : Int) (sendRet : Int) :
    List Action :=
  [Action.log Msg.transmittingInfo, Action.log Msg.transmitTarget,
   Action.sendCall client_fd (zeroBuffer cfg.tcp_data_upload_size_bytes)] ++
  (if sendRet < 0 then
    [Action.log Msg.sendFailed, Action.closeCall client_fd]
  else
    [Action.submitWork (Delay.seconds cfg.tcp_data_upload_frequency_seconds)])

/-- LTE network registration status values (`lte_lc_nw_reg_status`). -/
inductive NwRegStatus where
  | notRegistered
  | registeredHome
  | searching
  | registrationDenied
  | unknown
  | registeredRoaming
  | registeredEmergency
  | uiccFail
deriving DecidableEq

/-- RRC mode values (`lte_lc_rrc_mode`). -/
inductive RrcMode where
  | idle
  | connected
deriving DecidableEq

/-- LTE link-control events delivered to `lte_handler`.  The eDRX event
carries the value `snprintf` returns when formatting its log line (the
handler prints only when that length is positive). -/
inductive LteEvt where
  | nwRegStatus (s : NwRegStatus)
  | psmUpdate (tau activeTime : Int)
  | edrxUpdate (fmtLen : Int)
  | rrcUpdate (m : RrcMode)
  | cellUpdate (id tac : Int)
  | otherEvt
deriving DecidableEq

/-- Embeds `lte_handler`: on a registration-status event with status registered-home
or registered-roaming it logs and gives the `lte_connected` semaphore; on any
other registration status it does nothing; every other event kind only
logs. -/
def lte_handler (evt : LteEvt) : List Action :=
  match evt with
  | LteEvt.nwRegStatus s =>
      if s ≠ NwRegStatus.registeredHome ∧ s ≠ NwRegStatus.registeredRoaming then
        []
      else
        [Action.log Msg.nwRegStatusConnected, Action.semGive]
  | LteEvt.psmUpdate _ _ => [Action.log Msg.psmUpdate]
  | LteEvt.edrxUpdate fmtLen =>
      if 0 < fmtLen then [Action.log Msg.edrxUpdate] else []
  | LteEvt.rrcUpdate _ => [Action.log Msg.rrcMode]
  | LteEvt.cellUpdate _ _ => [Action.log Msg.cellUpdate]
  | LteEvt.otherEvt => []

/-- Holds exactly for a registration-status event whose status is
registered-home or registered-roaming. -/
def isRegisteredEvt : LteEvt → Bool
  | LteEvt.nwRegStatus NwRegStatus.registeredHome => true
  | LteEvt.nwRegStatus NwRegStatus.registeredRoaming => true
  | _ => false

/-- All actions the handler performs over a sequence of delivered events. -/
def handlerTrace (evts : List LteEvt) : List Action :=
  (evts.map lte_handler).flatten

/-- Embeds `configure_low_power`: requests PSM (enable or disable per config),
then eDRX (enable or disable per config), then RAI only when enabled,
logging each failing request; returns the last `err` assigned
(the RAI result when RAI is enabled, otherwise the eDRX result). -/
def configure_low_power (cfg : Config) (env : Env) : Int × List Action :=
  let psmTrace := if env.psmRet ≠ 0 then [Action.log Msg.psmReqErr] else []
  let edrxTrace := if env.edrxRet ≠ 0 then [Action.log Msg.edrxReqErr] else []
  if cfg.tcp_rai_enable then
    (env.raiRet,
     psmTrace ++ edrxTrace ++
       (if env.raiRet ≠ 0 then [Action.log Msg.raiReqErr] else []))
  else
    (env.edrxRet, psmTrace ++ edrxTrace)

/-- Embeds `modem_configure`: when auto-init-and-connect is configured it does
nothing; otherwise it calls `lte_lc_init_and_connect_async` and logs on a
nonzero result. -/
def modem_configure (cfg : Config) (env : Env) : List Action :=
  if cfg.lte_auto_init_and_connect then
    []
  else if env.modemInitRet ≠ 0 then
    [Action.lteInitAndConnectAsync, Action.log Msg.modemConfigErr]
  else
    [Action.lteInitAndConnectAsync]

/-- The set of currently open socket descriptors, as the transport provider
tracks them; `close` removes the descriptor when present and reports an
error (ignored by the caller) otherwise. -/
def close_fd (openFds : List Int) (fd : Int) : List Int :=
  openFds.filter (fun x => x ≠ fd)

/-- Embeds `client_disconnect`: calls `close(client_fd)` and discards its result
(the `(void)` cast); the session keeps no other state. -/
def client_disconnect (openFds : List Int) (client_fd : Int) : List Int :=
  close_fd openFds client_fd

/-- Value of `AF_INET` as Zephyr defines it. -/
def AF_INET : Nat := 1

/-- Host-to-network-short byte swap on a 16-bit value. -/
def htons (x : Nat) : Nat := ((x % 256) * 256 + (x / 256) % 256) % 65536

/-- The `sockaddr_in` view of `host_addr` that `client_init` fills in. -/
structure SockAddrIn where
  sin_family : Nat
  sin_port : Nat
  sin_addr : Nat
deriving DecidableEq

/-- Embeds `client_init`: fills in address family, port and (via `inet_pton`, whose
result is ignored) the server address, and returns 0 unconditionally.
On `inet_pton` failure the address field keeps its zero-initialised static
value. -/
def client_init (cfg : Config) (env : Env) : Int × SockAddrIn :=
  (0,
   { sin_family := AF_INET
     sin_port := htons cfg.tcp_server_port
     sin_addr := if env.ptonRet = 1 then env.ptonAddr else 0 })

/-- Result of `client_connect`: its return value, the final `client_fd`,
and the actions performed. -/
structure ConnectOut where
  ret : Int
  client_fd : Int
  trace : List Action
deriving DecidableEq

/-- Embeds `client_connect`: creates a socket; if creation fails it logs and
returns 0; otherwise it connects, and on connect failure logs, disconnects
(closes the socket) and returns the `connect` result, on success logs and
returns 0. -/
def client_connect (env : Env) : ConnectOut :=
  let fd := env.socketRet
  if fd < 0 then
    { ret := 0, client_fd := fd
      trace := [Action.socketCreate, Action.log Msg.socketCreateFailed] }
  else if env.connectRet < 0 then
    { ret := env.connectRet, client_fd := fd
      trace := [Action.socketCreate, Action.connectCall fd,
                Action.log Msg.connectFailed, Action.closeCall fd] }
  else
    { ret := 0, client_fd := fd
      trace := [Action.socketCreate, Action.connectCall fd,
                Action.log Msg.connectSuccess] }

/-- Embeds `main`: logs the banner, initialises the work item; with link control
enabled it configures low power (logging a nonzero result), configures the
modem and blocks on the `lte_connected` semaphore; then `client_init`
(early return on nonzero), `client_connect` (early return on nonzero), and
finally submits the transmission work with no delay. -/
def mainTrace (cfg : Config) (env : Env) : List Action :=
  [Action.log Msg.sampleStarted, Action.workInit] ++
  (if cfg.lte_link_control then
    (configure_low_power cfg env).2 ++
    (if (configure_low_power cfg env).1 ≠ 0 then [Action.log Msg.lowPowerErr]
     else []) ++
    modem_configure cfg env ++
    [Action.semTake]
  else []) ++
  (if (client_init cfg env).1 ≠ 0 then
    [Action.log Msg.notAbleToInit]
  else
    (client_connect env).trace ++
    (if (client_connect env).ret ≠ 0 then
      [Action.log Msg.notAbleToConnect]
    else
      [Action.submitWork Delay.noWait]))


/-! ### Concrete runs used as failing inputs and witnesses -/

/-- A representative configuration: 10-byte payload, 60-second interval,
port 4321, link control on, no auto-init, PSM on, eDRX and RAI off. -/
def cfgEx : Config :=
  { tcp_data_upload_size_bytes := 10
    tcp_data_upload_frequency_seconds := 60
    tcp_server_port := 4321
    lte_link_control := true
    lte_auto_init_and_connect := false
    tcp_psm_enable := true
    tcp_edrx_enable := false
    tcp_rai_enable := false }

/-- A run in which `socket()` fails (returns -1) and everything else would
have succeeded. -/
def envSocketFail : Env :=
  { psmRet := 0, edrxRet := 0, raiRet := 0, modemInitRet := 0
    socketRet := -1, connectRet := 0, ptonRet := 1, ptonAddr := 167772165 }

/-- A run in which `socket()` succeeds (fd 5) but `connect()` fails. -/
def envConnectFail : Env :=
  { psmRet := 0, edrxRet := 0, raiRet := 0, modemInitRet := 0
    socketRet := 5, connectRet := -115, ptonRet := 1, ptonAddr := 167772165 }

/-- A fully successful run in which the PSM and eDRX requests fail. -/
def envLpFail : Env :=
  { psmRet := -1, edrxRet := -14, raiRet := 0, modemInitRet := 0
    socketRet := 5, connectRet := 0, ptonRet := 1, ptonAddr := 167772165 }

/-! ### Helper lemmas -/

/-- The handler gives the semaphore exactly on a home/roaming
registration event. -/
theorem semGive_mem_lte_handler (evt : LteEvt) :
    Action.semGive ∈ lte_handler evt ↔ isRegisteredEvt evt = true := by
  cases evt with
  | nwRegStatus s => cases s <;> simp [lte_handler, isRegisteredEvt]
  | psmUpdate tau activeTime => simp [lte_handler, isRegisteredEvt]
  | edrxUpdate fmtLen =>
      by_cases h : 0 < fmtLen <;> simp [lte_handler, isRegisteredEvt, h]
  | rrcUpdate m => simp [lte_handler, isRegisteredEvt]
  | cellUpdate id tac => simp [lte_handler, isRegisteredEvt]
  | otherEvt => simp [lte_handler, isRegisteredEvt]

/-- On a non-registered event every handler action is a log. -/
theorem lte_handler_only_logs (evt : LteEvt) (h : isRegisteredEvt evt = false) :
    (lte_handler evt).all isLogAction = true := by
  cases evt with
  | nwRegStatus s => cases s <;> simp_all [lte_handler, isRegisteredEvt, isLogAction]
  | psmUpdate tau activeTime => simp [lte_handler, isLogAction]
  | edrxUpdate fmtLen =>
      by_cases hl : 0 < fmtLen <;> simp [lte_handler, isLogAction, hl]
  | rrcUpdate m => simp [lte_handler, isLogAction]
  | cellUpdate id tac => simp [lte_handler, isLogAction]
  | otherEvt => simp [lte_handler]

/-- Over a sequence of events, the semaphore is given at some point iff some
event is a home/roaming registration event. -/
theorem semGive_mem_handlerTrace (evts : List LteEvt) :
    Action.semGive ∈ handlerTrace evts ↔ evts.any isRegisteredEvt = true := by
  induction evts with
  | nil => simp [handlerTrace]
  | cons e t ih =>
      simp only [handlerTrace, List.map_cons, List.flatten_cons, List.mem_append,
        List.any_cons, Bool.or_eq_true]
      rw [← handlerTrace]
      rw [ih, semGive_mem_lte_handler]

/-- The connect attempt always creates a socket first. -/
theorem socketCreate_mem_client_connect (env : Env) :
    Action.socketCreate ∈ (client_connect env).trace := by
  by_cases h1 : env.socketRet < 0
  · simp [client_connect, h1]
  · by_cases h2 : env.connectRet < 0 <;> simp [client_connect, h1, h2]

/-! ### Claim theorems -/

/-- C1: the claim that a failed connection never arms the periodic trigger is
violated by the code.  In the run `envSocketFail` socket creation fails
(negative descriptor), so the session is not connected, yet `client_connect`
returns 0 and `main` submits the periodic transmission work with no delay. -/
theorem trigger_armed_despite_socket_failure :
    envSocketFail.socketRet < 0 ∧
    Action.submitWork Delay.noWait ∈ mainTrace cfgEx envSocketFail := by
  decide

/-- C2: the claim that `client_connect` returns an error whenever socket
creation fails is violated: with `socket()` failing (`envSocketFail`),
`client_connect` returns 0, the success value. -/
theorem client_connect_success_on_socket_failure :
    envSocketFail.socketRet < 0 ∧ (client_connect envSocketFail).ret = 0 := by
  decide

/-- C3: when `send` returns a negative value on a firing, the work function
never resubmits the delayed work (no next firing is armed) and closes the
socket descriptor before returning. -/
theorem send_failure_no_rearm_and_close (cfg : Config) (fd r : Int)
    (h : r < 0) :
    (∀ d, Action.submitWork d ∉ server_transmission_work_fn cfg fd r) ∧
    Action.closeCall fd ∈ server_transmission_work_fn cfg fd r := by
  simp [server_transmission_work_fn, h]

/-- Witness for C3 at the 10-byte configuration, descriptor 5, send result -1. -/
theorem send_failure_no_rearm_and_close_witness :
    (∀ d, Action.submitWork d ∉ server_transmission_work_fn cfgEx 5 (-1)) ∧
    Action.closeCall 5 ∈ server_transmission_work_fn cfgEx 5 (-1) :=
  send_failure_no_rearm_and_close cfgEx 5 (-1) (by decide)

/-- C4: every firing calls `send` on the current descriptor with the
zero-filled buffer of exactly the configured size: its length is the
configured payload size and every byte of it is 0. -/
theorem send_zero_filled_payload (cfg : Config) (fd r : Int)
    (h : 0 < cfg.tcp_data_upload_size_bytes) :
    Action.sendCall fd (zeroBuffer cfg.tcp_data_upload_size_bytes) ∈
      server_transmission_work_fn cfg fd r ∧
    (zeroBuffer cfg.tcp_data_upload_size_bytes).length =
      cfg.tcp_data_upload_size_bytes ∧
    ∀ b ∈ zeroBuffer cfg.tcp_data_upload_size_bytes, b = 0 := by
  refine ⟨?_, by simp [zeroBuffer], ?_⟩
  · simp [server_transmission_work_fn]
  · intro b hb
    simp only [zeroBuffer] at hb
    exact List.eq_of_mem_replicate hb

/-- Witness for C4 at payload size 10, descriptor 5, send result 10. -/
theorem send_zero_filled_payload_witness :
    Action.sendCall 5 (zeroBuffer cfgEx.tcp_data_upload_size_bytes) ∈
      server_transmission_work_fn cfgEx 5 10 ∧
    (zeroBuffer cfgEx.tcp_data_upload_size_bytes).length =
      cfgEx.tcp_data_upload_size_bytes ∧
    ∀ b ∈ zeroBuffer cfgEx.tcp_data_upload_size_bytes, b = 0 :=
  send_zero_filled_payload cfgEx 5 10 (by decide)

/-- C5: within one firing the trace splits as actions before the `send`
call, the `send` call, and actions after it; no work submission happens
before the `send` call returns, and the next firing is armed (work
resubmitted after the configured interval) exactly when the send result is
nonnegative. -/
theorem rearm_strictly_after_send_iff_success (cfg : Config) (fd r : Int) :
    ∃ pre post,
      server_transmission_work_fn cfg fd r =
        pre ++ Action.sendCall fd (zeroBuffer cfg.tcp_data_upload_size_bytes)
          :: post ∧
      (∀ d, Action.submitWork d ∉ pre) ∧
      (Action.submitWork (Delay.seconds cfg.tcp_data_upload_frequency_seconds)
          ∈ post ↔ 0 ≤ r) := by
  refine ⟨[Action.log Msg.transmittingInfo, Action.log Msg.transmitTarget],
    if r < 0 then [Action.log Msg.sendFailed, Action.closeCall fd]
    else [Action.submitWork (Delay.seconds cfg.tcp_data_upload_frequency_seconds)],
    rfl, by simp, ?_⟩
  by_cases h : r < 0 <;> simp [h] <;> omega

/-- C6: the semaphore is given exactly on home/roaming registration events;
every other delivered event produces only log actions; and across any event
sequence the semaphore (hence the blocked main context) is released iff some
home/roaming registration event arrives. -/
theorem sem_given_iff_registered (evts : List LteEvt) (evt : LteEvt) :
    (Action.semGive ∈ lte_handler evt ↔ isRegisteredEvt evt = true) ∧
    (isRegisteredEvt evt = false → (lte_handler evt).all isLogAction = true) ∧
    (Action.semGive ∈ handlerTrace evts ↔ evts.any isRegisteredEvt = true) :=
  ⟨semGive_mem_lte_handler evt, lte_handler_only_logs evt,
   semGive_mem_handlerTrace evts⟩

/-- C7: whatever the results of the PSM, eDRX and RAI requests, `main` still
reaches modem configuration (`lte_lc_init_and_connect_async` is called when
auto-init is off), the registration wait (the semaphore take), and the
connect attempt (a socket is created). -/
theorem low_power_failures_nonfatal (cfg : Config) (env : Env)
    (h1 : cfg.lte_link_control = true)
    (h2 : cfg.lte_auto_init_and_connect = false) :
    Action.lteInitAndConnectAsync ∈ mainTrace cfg env ∧
    Action.semTake ∈ mainTrace cfg env ∧
    Action.socketCreate ∈ mainTrace cfg env := by
  have hmc : Action.lteInitAndConnectAsync ∈ modem_configure cfg env := by
    by_cases h3 : env.modemInitRet ≠ 0 <;> simp [modem_configure, h2, h3]
  have hsc := socketCreate_mem_client_connect env
  refine ⟨?_, ?_, ?_⟩ <;>
    simp [mainTrace, h1, client_init, List.mem_append] <;> tauto

/-- Witness for C7: a run in which both the PSM and the eDRX requests fail
still configures the modem, waits for registration and attempts to connect. -/
theorem low_power_failures_nonfatal_witness :
    Action.lteInitAndConnectAsync ∈ mainTrace cfgEx envLpFail ∧
    Action.semTake ∈ mainTrace cfgEx envLpFail ∧
    Action.socketCreate ∈ mainTrace cfgEx envLpFail :=
  low_power_failures_nonfatal cfgEx envLpFail (by decide) (by decide)

/-- C8: `client_disconnect` is idempotent: a second call leaves the set of
open descriptors exactly as the first left it (it reports no error to the
caller, since its result is discarded by the `(void)` cast), and after one
call the descriptor is no longer open, so no double release occurs. -/
theorem client_disconnect_idempotent (openFds : List Int) (fd : Int) :
    client_disconnect (client_disconnect openFds fd) fd =
      client_disconnect openFds fd ∧
    fd ∉ client_disconnect openFds fd := by
  constructor
  · refine List.filter_eq_self.mpr ?_
    intro a ha
    exact (List.mem_filter.mp ha).2
  · simp [client_disconnect, close_fd]

/-- C9: `client_init` returns 0 for every configuration and every
`inet_pton` outcome, so the initialization-failure log line of `main` is
never emitted in any run. -/
theorem client_init_never_fails (cfg : Config) (env : Env) :
    (client_init cfg env).1 = 0 ∧
    Action.log Msg.notAbleToInit ∉ mainTrace cfg env := by
  have hlp : Action.log Msg.notAbleToInit ∉ (configure_low_power cfg env).2 := by
    simp only [configure_low_power]
    split_ifs <;> simp
  have hmc : Action.log Msg.notAbleToInit ∉ modem_configure cfg env := by
    simp only [modem_configure]
    split_ifs <;> simp
  have hcc : Action.log Msg.notAbleToInit ∉ (client_connect env).trace := by
    by_cases hs : env.socketRet < 0
    · simp [client_connect, hs]
    · by_cases hc : env.connectRet < 0 <;> simp [client_connect, hs, hc]
  refine ⟨rfl, ?_⟩
  by_cases hl : cfg.lte_link_control <;>
  by_cases hr : (configure_low_power cfg env).1 ≠ 0 <;>
  by_cases hk : (client_connect env).ret ≠ 0 <;>
    simp [mainTrace, client_init, hl, hr, hk, List.mem_append] <;> tauto

/-- C10: a partial send (nonnegative result smaller than the payload size)
takes the success path: the socket is not closed and the next firing is
armed after the configured interval. -/
theorem partial_send_treated_as_success (cfg : Config) (fd r : Int)
    (h0 : 0 ≤ r) (h1 : r < (cfg.tcp_data_upload_size_bytes : Int)) :
    Action.closeCall fd ∉ server_transmission_work_fn cfg fd r ∧
    Action.submitWork (Delay.seconds cfg.tcp_data_upload_frequency_seconds) ∈
      server_transmission_work_fn cfg fd r := by
  have hneg : ¬r < 0 := by omega
  simp [server_transmission_work_fn, hneg]

/-- Witness for C10: payload size 10, descriptor 5, send result 4 (partial). -/
theorem partial_send_treated_as_success_witness :
    Action.closeCall 5 ∉ server_transmission_work_fn cfgEx 5 4 ∧
    Action.submitWork (Delay.seconds cfgEx.tcp_data_upload_frequency_seconds) ∈
      server_transmission_work_fn cfgEx 5 4 :=
  partial_send_treated_as_success cfgEx 5 4 (by decide) (by decide)

end TcpClient
